import Mathlib

/-!
Verification of the reconciliation engine of `caddy-local-dns` (module.go).

The embedding translates the decision logic of `module.go` into Lean:
`App.Provision`, `App.createProvider`, `Handler.ServeHTTP` and
`Handler.handleDomain`, together with a model of Go's `net.ParseIP`
validity check (Go's standard library dispatches through
`netip.ParseAddr`; the model below follows `parseIPv4Fields` and
`parseIPv6` from `net/netip`). Provider backends live outside this
repository behind the `provider.DNSService` interface; they are
represented abstractly as records of `find`/`create`/`update` functions,
and invocations of those operations are collected in an explicit trace.
-/

namespace LocalDNS

/-- A DNS record as observed from a provider: the bound IP and the
enabled flag (fields `IP` and `Enabled` of `provider.DNSRecord`). -/
structure Record where
  ip : String
  enabled : Bool
deriving DecidableEq, Repr

/-- Configuration of one DNS provider (`ProviderConfig` in module.go). -/
structure ProviderConfig where
  type : String
  hostname : String
  apiKey : String
  apiSecret : String
  dnsService : String
  insecure : Bool
deriving DecidableEq, Repr

/-- The global app configuration (`App` in module.go): named provider
configs (Go map modelled as an association list), the global default IP
`caddy_ip`, and the debug flag. -/
structure App where
  providers : List (String × ProviderConfig)
  caddyIP : String
  debug : Bool

/-- Per-site handler configuration (`Handler` in module.go). -/
structure Handler where
  provider : String
  ipOverride : String
deriving DecidableEq, Repr

/-! ## Model of Go's `net.ParseIP` validity

`net.ParseIP` delegates to `netip.ParseAddr` and rejects any address
carrying a zone, so a string containing a percent sign is never a valid
IP for `net.ParseIP`.  `netip.ParseAddr` scans for the first of
`.`/`:`/`%` and dispatches to the IPv4 or IPv6 parser accordingly. -/

/-- One pass of `netip.parseIPv4Fields`: `val` is the running octet
value, `pos` the number of completed octets, `digLen` the number of
digits in the current octet. -/
def v4Go : List Char → Nat → Nat → Nat → Bool
  | [], _, pos, _ => pos = 3
  | c :: rest, val, pos, digLen =>
    if '0' ≤ c ∧ c ≤ '9' then
      if digLen = 1 ∧ val = 0 then false
      else
        let val2 := val * 10 + (c.toNat - '0'.toNat)
        if val2 > 255 then false
        else v4Go rest val2 pos (digLen + 1)
    else if c = '.' then
      if digLen = 0 ∨ rest = [] then false
      else if pos = 3 then false
      else v4Go rest 0 (pos + 1) 0
    else false

/-- Validity part of `netip.parseIPv4`. -/
def parseIPv4Valid (s : List Char) : Bool := v4Go s 0 0 0

def isHexDigit (c : Char) : Bool :=
  ('0' ≤ c ∧ c ≤ '9') ∨ ('a' ≤ c ∧ c ≤ 'f') ∨ ('A' ≤ c ∧ c ≤ 'F')

def hexVal (c : Char) : Nat :=
  if '0' ≤ c ∧ c ≤ '9' then c.toNat - '0'.toNat
  else if 'a' ≤ c ∧ c ≤ 'f' then c.toNat - 'a'.toNat + 10
  else c.toNat - 'A'.toNat + 10

/-- The inner hex-number scan of `netip.parseIPv6`: consume leading hex
digits, returning `none` when the accumulated group value exceeds
`0xFFFF` (the parser fails outright there), and otherwise the number of
digits consumed together with the remainder of the string. -/
def takeHex : List Char → Nat → Nat → Option (Nat × List Char)
  | [], _, off => some (off, [])
  | c :: rest, acc, off =>
    if isHexDigit c then
      let acc2 := acc * 16 + hexVal c
      if acc2 > 0xFFFF then none
      else takeHex rest acc2 (off + 1)
    else some (off, c :: rest)

/-- Closing checks of `netip.parseIPv6` once the string is exhausted:
fewer than 16 bytes requires an ellipsis to expand; exactly 16 bytes
forbids one. -/
def v6Finish (i : Nat) (hasEll : Bool) : Bool :=
  if i < 16 then hasEll else !hasEll

/-- The main group loop of `netip.parseIPv6`.  `i` counts bytes already
filled, `hasEll` records whether a `::` has been seen.  Each iteration
consumes at least one character, so `fuel` initialised to the string
length never runs out. -/
def v6Loop : Nat → List Char → Nat → Bool → Bool
  | 0, s, i, hasEll => s = [] && v6Finish i hasEll
  | fuel + 1, s, i, hasEll =>
    match takeHex s 0 0 with
    | none => false
    | some (off, rest) =>
      if off = 0 then false
      else if rest.head? = some '.' then
        -- trailing embedded IPv4, parsed from the start of this group
        if (!hasEll ∧ i ≠ 12) ∨ i + 4 > 16 then false
        else parseIPv4Valid s && v6Finish (i + 4) hasEll
      else
        let i2 := i + 2
        match rest with
        | [] => v6Finish i2 hasEll
        | [':'] => false
        | ':' :: ':' :: rest3 =>
          if hasEll then false
          else if rest3 = [] then v6Finish i2 true
          else if i2 < 16 then v6Loop fuel rest3 i2 true
          else false
        | ':' :: rest2 =>
          if i2 < 16 then v6Loop fuel rest2 i2 hasEll
          else false
        | _ => false

/-- Validity part of `netip.parseIPv6`, specialised to `net.ParseIP`
(which rejects every address with a zone, hence any `%`). -/
def parseIPv6Valid (s : List Char) : Bool :=
  if s.contains '%' then false
  else
    match s with
    | ':' :: ':' :: rest =>
      if rest = [] then true
      else v6Loop rest.length rest 0 true
    | _ => v6Loop s.length s 0 false

/-- Dispatch loop of `netip.ParseAddr`: the first `.`/`:`/`%` decides
the parser; a string with none of them is not an IP. -/
def dispatchIP : List Char → List Char → Bool
  | [], _ => false
  | c :: rest, whole =>
    if c = '.' then parseIPv4Valid whole
    else if c = ':' then parseIPv6Valid whole
    else if c = '%' then false
    else dispatchIP rest whole

/-- Model of `net.ParseIP s != nil`. -/
def isValidIP (s : String) : Bool := dispatchIP s.data s.data

/-! ## Provider abstraction and the reconciliation engine -/

/-- One invocation of a `provider.DNSService` operation, recorded in
the order the engine issues them. -/
inductive Op where
  | findOp (domain : String)
  | createOp (domain ip : String)
  | updateOp (domain ip : String)
deriving DecidableEq, Repr

/-- The errors `Handler.handleDomain` can return, mirroring the error
paths of module.go lines 160-207: missing provider, no IP configured,
syntactically invalid IP, a wrapped `FindRecord` failure, and a
propagated `CreateRecord`/`UpdateRecord` failure. -/
inductive HandleError where
  | providerNotFound (name : String)
  | noIPConfigured
  | invalidIP (ip : String)
  | findFailed (msg : String)
  | writeFailed (msg : String)
deriving DecidableEq, Repr

/-- Abstract behaviour of a constructed provider backend
(`provider.DNSService`): the responses its three operations would give
during one reconciliation.  `find` returns `none` for an absent record
(not an error), per the contract. -/
structure Backend where
  find : String → Except String (Option Record)
  create : String → String → Except String Unit
  update : String → String → Except String Unit

/-- Is this operation a write (`CreateRecord` or `UpdateRecord`)? -/
def Op.isWrite : Op → Bool
  | .findOp _ => false
  | .createOp _ _ => true
  | .updateOp _ _ => true

/-- The write operations of a trace. -/
def writesOf (ops : List Op) : List Op := ops.filter Op.isWrite

/-- The IP-precedence computation of `Handler.handleDomain`
(module.go lines 167-170): start from the override and fall back to the
global `caddy_ip` when the override is empty. -/
def resolveIP (ipOverride caddyIP : String) : String :=
  if ipOverride = "" then caddyIP else ipOverride

/-- `Handler.handleDomain` (module.go lines 160-207), with the
provider registry `clients` passed explicitly and every provider
invocation recorded in a trace.  Returns the error result of the Go
function together with the ordered list of provider operations it
issued. -/
def handleDomain (clients : String → Option Backend) (caddyIP : String)
    (h : Handler) (domain : String) : Except HandleError Unit × List Op :=
  match clients h.provider with
  | none => (.error (.providerNotFound h.provider), [])
  | some backend =>
    let ip := resolveIP h.ipOverride caddyIP
    if ip = "" then (.error .noIPConfigured, [])
    else if isValidIP ip = false then (.error (.invalidIP ip), [])
    else
      match backend.find domain with
      | .error msg => (.error (.findFailed msg), [.findOp domain])
      | .ok (some existing) =>
        if existing.ip = ip ∧ existing.enabled = true then
          (.ok (), [.findOp domain])
        else
          match backend.update domain ip with
          | .ok _ => (.ok (), [.findOp domain, .updateOp domain ip])
          | .error msg =>
            (.error (.writeFailed msg), [.findOp domain, .updateOp domain ip])
      | .ok none =>
        match backend.create domain ip with
        | .ok _ => (.ok (), [.findOp domain, .createOp domain ip])
        | .error msg =>
          (.error (.writeFailed msg), [.findOp domain, .createOp domain ip])

/-- Index of the last colon in a character list, the model of
`strings.LastIndex(domain, ":")` (with `none` for Go's `-1`). -/
def lastColonAux : List Char → Option Nat
  | [] => none
  | c :: rest =>
    match lastColonAux rest with
    | some i => some (i + 1)
    | none => if c = ':' then some 0 else none

/-- The port-stripping step of `Handler.ServeHTTP` (module.go lines
144-149): `domain := r.Host`, then `domain = domain[:colonIndex]` when
`strings.LastIndex(domain, ":")` is not `-1`. -/
def stripPort (host : String) : String :=
  match lastColonAux host.data with
  | none => host
  | some i => ⟨host.data.take i⟩

/-- An inbound HTTP request, reduced to the only field the handler
reads (`r.Host`). -/
structure Request where
  host : String
deriving DecidableEq, Repr

/-- `Handler.ServeHTTP` (module.go lines 142-158): strip the port from
the host, run `handleDomain`, log any error without failing the
request, and invoke `next.ServeHTTP(w, r)` on the unchanged request.
The output records the value returned to the caller (the result of
`next`), the reconciliation outcome that was merely logged, and the
provider operations issued. -/
def serveHTTP (clients : String → Option Backend) (caddyIP : String)
    (h : Handler) (r : Request) (next : Request → Except String Unit) :
    Except String Unit × Except HandleError Unit × List Op :=
  let domain := stripPort r.host
  let res := handleDomain clients caddyIP h domain
  (next r, res.1, res.2)

/-! ## Provisioning -/

/-- `App.createProvider` (module.go lines 104-111): dispatch on the
type tag; only `"opnsense"` reaches a backend constructor.  The
constructor `ctor` stands for `provider.NewOPNsenseProvider` (outside
this repository); as in the Go call it receives the config and the
debug flag. -/
def createProvider (ctor : ProviderConfig → Bool → Except String Backend)
    (debug : Bool) (config : ProviderConfig) : Except String Backend :=
  if config.type = "opnsense" then ctor config debug
  else .error ("unsupported provider type: " ++ config.type)

/-- The provider-initialisation loop of `App.Provision` (module.go
lines 71-91) over the configured entries: each failure aborts the whole
provisioning with an error naming the provider. -/
def provisionClients (ctor : ProviderConfig → Bool → Except String Backend)
    (debug : Bool) :
    List (String × ProviderConfig) → Except String (List (String × Backend))
  | [] => .ok []
  | (name, config) :: rest =>
    match createProvider ctor debug config with
    | .error e => .error ("failed to create provider " ++ name ++ ": " ++ e)
    | .ok client =>
      match provisionClients ctor debug rest with
      | .error e => .error e
      | .ok clients => .ok ((name, client) :: clients)

/-- `App.Provision` (module.go lines 59-94): validate the global
`caddy_ip` when non-empty, then construct every configured provider,
failing on the first construction error. -/
def provision (ctor : ProviderConfig → Bool → Except String Backend)
    (a : App) : Except String (List (String × Backend)) :=
  if a.caddyIP ≠ "" ∧ isValidIP a.caddyIP = false then
    .error ("invalid caddy_ip address: " ++ a.caddyIP)
  else provisionClients ctor a.debug a.providers

/-! ## A stateful reliable backend, for the idempotence property

The provider contract (spec section 4.1) fixes what a write does to the
backend: `CreateRecord(domain, ip)` creates an address record for the
domain, and `UpdateRecord(domain, ip)` sets its address and ensures it
is enabled.  The state of such a backend is its record table. -/

/-- Backend state: the record each domain currently holds, if any. -/
def Store := String → Option Record

/-- Modelled from the spec: the effect of one provider operation on a
reliable backend's record table, per the contract of section 4.1 —
`FindRecord` reads only; `CreateRecord` and `UpdateRecord` leave the
domain bound to the given IP with the record enabled.  (The concrete
OPNsense backend lives outside this repository.) -/
def applyOp (st : Store) : Op → Store
  | .findOp _ => st
  | .createOp d i => fun x => if x = d then some ⟨i, true⟩ else st x
  | .updateOp d i => fun x => if x = d then some ⟨i, true⟩ else st x

/-- Modelled from the spec: a reliable backend over a record table,
answering `FindRecord` from the table and accepting every write. -/
def storeBackend (st : Store) : Backend where
  find d := .ok (st d)
  create _ _ := .ok ()
  update _ _ := .ok ()

/-- One reconciliation of `domain` against a reliable stateful backend
registered under the handler's provider name: run `handleDomain`, then
apply the issued operations to the record table. -/
def reconcile (st : Store) (caddyIP : String) (h : Handler)
    (domain : String) : (Except HandleError Unit × List Op) × Store :=
  let out := handleDomain
    (fun name => if name = h.provider then some (storeBackend st) else none)
    caddyIP h domain
  (out, out.2.foldl applyOp st)

/-- Name resolution over the provisioned client list (the lookup
`h.app.clients[h.Provider]`). -/
def lookupClient (clients : List (String × Backend)) (name : String) :
    Option Backend :=
  (clients.find? (fun p => p.1 = name)).map (fun p => p.2)

/-- The full pipeline a request-time reconciliation sees: provision the
app (building `h.app.clients` and validating `caddy_ip`), then run
`handleDomain` against the provisioned clients and the app's global
IP. -/
def reconcileApp (ctor : ProviderConfig → Bool → Except String Backend)
    (a : App) (h : Handler) (domain : String) :
    Except String (Except HandleError Unit × List Op) :=
  match provision ctor a with
  | .error e => .error e
  | .ok clients => .ok (handleDomain (lookupClient clients) a.caddyIP h domain)

end LocalDNS

namespace LocalDNS

/-! ## Concrete fixtures

Small concrete backends, registries and configurations used to
instantiate the theorems below on closed inputs. -/

/-- A backend holding no record for any domain and accepting writes. -/
def absentBackend : Backend where
  find _ := .ok none
  create _ _ := .ok ()
  update _ _ := .ok ()

/-- A backend holding an enabled record bound to `10.0.0.1`. -/
def staleBackend : Backend where
  find _ := .ok (some ⟨"10.0.0.1", true⟩)
  create _ _ := .ok ()
  update _ _ := .ok ()

/-- A backend whose `FindRecord` fails. -/
def failingFindBackend : Backend where
  find _ := .error "connection refused"
  create _ _ := .ok ()
  update _ _ := .ok ()

/-- A registry with `staleBackend` registered under the name `opn`. -/
def staleClients : String → Option Backend := fun name =>
  if name = "opn" then some staleBackend else none

/-- A registry with `failingFindBackend` registered under `opn`. -/
def failingClients : String → Option Backend := fun name =>
  if name = "opn" then some failingFindBackend else none

/-- A registry with `absentBackend` registered under `opn`. -/
def absentClients : String → Option Backend := fun name =>
  if name = "opn" then some absentBackend else none

/-- A record table already holding the desired record for every
domain. -/
def correctStore : Store := fun _ => some ⟨"192.168.1.50", true⟩

/-- An empty record table. -/
def emptyStore : Store := fun _ => none

/-- A constructor standing in for `provider.NewOPNsenseProvider` that
always succeeds and ignores the debug flag. -/
def okCtor : ProviderConfig → Bool → Except String Backend :=
  fun _ _ => .ok absentBackend

/-- A constructor that always fails. -/
def failCtor : ProviderConfig → Bool → Except String Backend :=
  fun _ _ => .error "unreachable host"

/-- An `opnsense`-typed provider config. -/
def opnConfig : ProviderConfig :=
  ⟨"opnsense", "fw.local", "key", "secret", "unbound", false⟩

/-- A provider config with an unknown type tag. -/
def piholeConfig : ProviderConfig :=
  ⟨"pihole", "pi.local", "key", "secret", "dnsmasq", false⟩

/-! ## Theorems -/

/-- Reduced form of `handleDomain` once the provider is registered and
the desired IP is non-empty and syntactically valid: the outcome is
decided entirely by the answer of `FindRecord`. -/
theorem handleDomain_eq (clients : String → Option Backend) (caddyIP : String)
    (h : Handler) (domain : String) (b : Backend)
    (hb : clients h.provider = some b)
    (hip : resolveIP h.ipOverride caddyIP ≠ "")
    (hval : isValidIP (resolveIP h.ipOverride caddyIP) = true) :
    handleDomain clients caddyIP h domain =
      match b.find domain with
      | .error msg => (.error (.findFailed msg), [.findOp domain])
      | .ok (some existing) =>
        if existing.ip = resolveIP h.ipOverride caddyIP ∧ existing.enabled = true then
          (.ok (), [.findOp domain])
        else
          match b.update domain (resolveIP h.ipOverride caddyIP) with
          | .ok _ => (.ok (), [.findOp domain,
              .updateOp domain (resolveIP h.ipOverride caddyIP)])
          | .error msg => (.error (.writeFailed msg), [.findOp domain,
              .updateOp domain (resolveIP h.ipOverride caddyIP)])
      | .ok none =>
        match b.create domain (resolveIP h.ipOverride caddyIP) with
        | .ok _ => (.ok (), [.findOp domain,
            .createOp domain (resolveIP h.ipOverride caddyIP)])
        | .error msg => (.error (.writeFailed msg), [.findOp domain,
            .createOp domain (resolveIP h.ipOverride caddyIP)]) := by
  unfold handleDomain
  rw [hb]
  dsimp only
  rw [if_neg hip, hval]
  simp only [Bool.true_eq_false, if_false]

/-- C1: for every reconciliation of (domain, desiredIP) against a
registered provider, the engine's decision is a three-way branch on the
result of FindRecord(domain): absent → exactly
CreateRecord(domain, desiredIP) is invoked; present with matching IP
and Enabled true → no write is invoked and the reconciliation succeeds;
present with a differing IP or Enabled false → exactly
UpdateRecord(domain, desiredIP) is invoked. -/
theorem claim1_three_way_branch
    (clients : String → Option Backend) (caddyIP : String)
    (h : Handler) (domain : String) (b : Backend)
    (hb : clients h.provider = some b)
    (hip : resolveIP h.ipOverride caddyIP ≠ "")
    (hval : isValidIP (resolveIP h.ipOverride caddyIP) = true) :
    (b.find domain = .ok none →
      writesOf (handleDomain clients caddyIP h domain).2
        = [.createOp domain (resolveIP h.ipOverride caddyIP)]) ∧
    (∀ rec : Record, b.find domain = .ok (some rec) →
      rec.ip = resolveIP h.ipOverride caddyIP → rec.enabled = true →
      (handleDomain clients caddyIP h domain).1 = .ok () ∧
      writesOf (handleDomain clients caddyIP h domain).2 = []) ∧
    (∀ rec : Record, b.find domain = .ok (some rec) →
      ¬(rec.ip = resolveIP h.ipOverride caddyIP ∧ rec.enabled = true) →
      writesOf (handleDomain clients caddyIP h domain).2
        = [.updateOp domain (resolveIP h.ipOverride caddyIP)]) := by
  rw [handleDomain_eq clients caddyIP h domain b hb hip hval]
  refine ⟨fun hfind => ?_, fun rec hfind hipeq hen => ?_, fun rec hfind hne => ?_⟩
  · rw [hfind]
    cases hc : b.create domain (resolveIP h.ipOverride caddyIP) <;> rfl
  · rw [hfind]
    dsimp only
    rw [if_pos ⟨hipeq, hen⟩]
    exact ⟨rfl, rfl⟩
  · rw [hfind]
    dsimp only
    rw [if_neg hne]
    cases hu : b.update domain (resolveIP h.ipOverride caddyIP) <;> rfl

/-- Witness for C1: a stale record bound to `10.0.0.1` while the
desired IP is `192.168.1.50` makes the engine issue exactly one
UpdateRecord. -/
theorem claim1_witness :
    writesOf (handleDomain staleClients "" ⟨"opn", "192.168.1.50"⟩ "svc.local").2
      = [.updateOp "svc.local" "192.168.1.50"] := by
  have hmain := claim1_three_way_branch staleClients "" ⟨"opn", "192.168.1.50"⟩
    "svc.local" staleBackend rfl (by decide) (by decide)
  exact hmain.2.2 ⟨"10.0.0.1", true⟩ rfl (by decide)

/-- C3: the desired IP is the handler's ipOverride when non-empty,
otherwise the global default `caddy_ip`; when both are empty the
reconciliation fails with the NoIPConfigured error before any provider
operation is invoked. -/
theorem claim3_ip_precedence
    (clients : String → Option Backend) (caddyIP : String)
    (h : Handler) (domain : String) (b : Backend)
    (hb : clients h.provider = some b) :
    (h.ipOverride ≠ "" → resolveIP h.ipOverride caddyIP = h.ipOverride) ∧
    (h.ipOverride = "" → resolveIP h.ipOverride caddyIP = caddyIP) ∧
    (h.ipOverride = "" → caddyIP = "" →
      handleDomain clients caddyIP h domain = (.error .noIPConfigured, [])) := by
  refine ⟨fun hne => if_neg hne, fun he => by rw [resolveIP, if_pos he],
    fun he hc => ?_⟩
  unfold handleDomain
  rw [hb]
  dsimp only
  rw [if_pos (show resolveIP h.ipOverride caddyIP = "" by rw [resolveIP, if_pos he, hc])]

/-- Witness for C3: empty override and empty global IP yield
NoIPConfigured with an empty operation trace. -/
theorem claim3_witness :
    handleDomain staleClients "" ⟨"opn", ""⟩ "svc.local"
      = (.error .noIPConfigured, []) :=
  (claim3_ip_precedence staleClients "" ⟨"opn", ""⟩ "svc.local"
    staleBackend rfl).2.2 rfl rfl

/-- C4: when the computed desired IP is not a syntactically valid IP
address, reconciliation fails with the InvalidIP error and no provider
operation at all is invoked. -/
theorem claim4_invalid_ip
    (clients : String → Option Backend) (caddyIP : String)
    (h : Handler) (domain : String) (b : Backend)
    (hb : clients h.provider = some b)
    (hip : resolveIP h.ipOverride caddyIP ≠ "")
    (hval : isValidIP (resolveIP h.ipOverride caddyIP) = false) :
    handleDomain clients caddyIP h domain
      = (.error (.invalidIP (resolveIP h.ipOverride caddyIP)), []) := by
  unfold handleDomain
  rw [hb]
  dsimp only
  rw [if_neg hip, hval, if_pos rfl]

/-- Witness for C4: the malformed override `999.1.1.1` fails with
InvalidIP before any provider call. -/
theorem claim4_witness :
    handleDomain staleClients "" ⟨"opn", "999.1.1.1"⟩ "svc.local"
      = (.error (.invalidIP "999.1.1.1"), []) :=
  claim4_invalid_ip staleClients "" ⟨"opn", "999.1.1.1"⟩ "svc.local"
    staleBackend rfl (by decide) (by decide)

/-- C5: when FindRecord fails, reconciliation propagates the query
error, attempts no write, and leaves any backend record table
unchanged. -/
theorem claim5_query_error_aborts
    (clients : String → Option Backend) (caddyIP : String)
    (h : Handler) (domain : String) (b : Backend) (msg : String)
    (hb : clients h.provider = some b)
    (hip : resolveIP h.ipOverride caddyIP ≠ "")
    (hval : isValidIP (resolveIP h.ipOverride caddyIP) = true)
    (hfind : b.find domain = .error msg) :
    (handleDomain clients caddyIP h domain).1 = .error (.findFailed msg) ∧
    writesOf (handleDomain clients caddyIP h domain).2 = [] ∧
    ∀ st : Store, (handleDomain clients caddyIP h domain).2.foldl applyOp st = st := by
  rw [handleDomain_eq clients caddyIP h domain b hb hip hval, hfind]
  exact ⟨rfl, rfl, fun st => rfl⟩

/-- Witness for C5: a backend whose FindRecord fails makes the engine
abort with the wrapped query error and write nothing. -/
theorem claim5_witness :
    (handleDomain failingClients "" ⟨"opn", "192.168.1.50"⟩ "svc.local").1
      = .error (.findFailed "connection refused") ∧
    writesOf (handleDomain failingClients "" ⟨"opn", "192.168.1.50"⟩ "svc.local").2
      = [] := by
  have hmain := claim5_query_error_aborts failingClients ""
    ⟨"opn", "192.168.1.50"⟩ "svc.local" failingFindBackend "connection refused"
    rfl (by decide) (by decide) rfl
  exact ⟨hmain.1, hmain.2.1⟩

/-- C7: the adapter returns exactly what the next handler returns on
the original, unchanged request, and the reconciliation outcome is kept
aside (merely logged) — whatever that outcome is, it never becomes the
request's own error. -/
theorem claim7_request_forwarded (clients : String → Option Backend)
    (caddyIP : String) (h : Handler) (r : Request)
    (next : Request → Except String Unit) :
    (serveHTTP clients caddyIP h r next).1 = next r ∧
    (serveHTTP clients caddyIP h r next).2.1
      = (handleDomain clients caddyIP h (stripPort r.host)).1 :=
  ⟨rfl, rfl⟩

/-- A list without a colon has no last-colon index. -/
theorem lastColonAux_of_no_colon :
    ∀ (l : List Char), l.contains ':' = false → lastColonAux l = none
  | [], _ => rfl
  | c :: rest, hl => by
    have hc : ¬(':' = c) ∧ rest.contains ':' = false := by
      simpa [List.contains_cons] using hl
    rw [lastColonAux, lastColonAux_of_no_colon rest hc.2]
    have hcne : c ≠ ':' := fun he => hc.1 he.symm
    simp only [if_neg hcne]

/-- The last colon of `a ++ ':' :: b` with colon-free `b` sits at index
`a.length`. -/
theorem lastColonAux_append :
    ∀ (a b : List Char), b.contains ':' = false →
      lastColonAux (a ++ ':' :: b) = some a.length
  | [], b, hb => by
    rw [List.nil_append, lastColonAux, lastColonAux_of_no_colon b hb]
    simp
  | c :: a2, b, hb => by
    rw [List.cons_append, lastColonAux, lastColonAux_append a2 b hb]
    rfl

/-- C8: the reconciled domain is the prefix of the request host before
its last colon when the host contains one, and the host unchanged
otherwise; in particular a trailing port is stripped. -/
theorem claim8_domain_extraction :
    (∀ s : String, s.data.contains ':' = false → stripPort s = s) ∧
    (∀ a b : List Char, b.contains ':' = false →
      stripPort ⟨a ++ ':' :: b⟩ = ⟨a⟩) ∧
    stripPort "service.example.com:8080" = "service.example.com" ∧
    stripPort "service.example.com" = "service.example.com" := by
  refine ⟨fun s hs => ?_, fun a b hb => ?_, by decide, by decide⟩
  · unfold stripPort
    rw [lastColonAux_of_no_colon s.data hs]
  · unfold stripPort
    rw [show (String.mk (a ++ ':' :: b)).data = a ++ ':' :: b from rfl,
      lastColonAux_append a b hb]
    dsimp only
    rw [List.take_left]

/-- Witness for C8: stripping the port from a host whose name itself
contains no colon. -/
theorem claim8_witness :
    stripPort ⟨"pi.hole".data ++ ':' :: "53".data⟩ = "pi.hole" :=
  claim8_domain_extraction.2.1 "pi.hole".data "53".data (by decide)

/-- When the stored record already matches the desired state, one
reconciliation is a pure no-op: success, a single read, no state
change. -/
theorem reconcile_noop (st : Store) (caddyIP : String) (h : Handler)
    (domain : String)
    (hip : resolveIP h.ipOverride caddyIP ≠ "")
    (hval : isValidIP (resolveIP h.ipOverride caddyIP) = true)
    (hst : st domain = some ⟨resolveIP h.ipOverride caddyIP, true⟩) :
    reconcile st caddyIP h domain = ((.ok (), [.findOp domain]), st) := by
  unfold reconcile
  dsimp only
  rw [handleDomain_eq _ caddyIP h domain (storeBackend st) (by simp) hip hval]
  dsimp only [storeBackend]
  rw [hst]
  dsimp only
  rw [if_pos ⟨rfl, rfl⟩]
  rfl

/-- When the stored record is absent, disabled or bound to another IP,
one reconciliation succeeds with exactly one write and leaves the
domain bound, enabled, to the desired IP. -/
theorem reconcile_write (st : Store) (caddyIP : String) (h : Handler)
    (domain : String)
    (hip : resolveIP h.ipOverride caddyIP ≠ "")
    (hval : isValidIP (resolveIP h.ipOverride caddyIP) = true)
    (hst : st domain ≠ some ⟨resolveIP h.ipOverride caddyIP, true⟩) :
    (reconcile st caddyIP h domain).1.1 = .ok () ∧
    (writesOf (reconcile st caddyIP h domain).1.2).length = 1 ∧
    (reconcile st caddyIP h domain).2 = fun x =>
      if x = domain then some ⟨resolveIP h.ipOverride caddyIP, true⟩
      else st x := by
  unfold reconcile
  dsimp only
  rw [handleDomain_eq _ caddyIP h domain (storeBackend st) (by simp) hip hval]
  dsimp only [storeBackend]
  cases hcase : st domain with
  | none => exact ⟨rfl, rfl, rfl⟩
  | some rec =>
    dsimp only
    have hne : ¬(rec.ip = resolveIP h.ipOverride caddyIP ∧ rec.enabled = true) := by
      rintro ⟨h1, h2⟩
      apply hst
      rw [hcase]
      cases rec
      simp_all
    rw [if_neg hne]
    exact ⟨rfl, rfl, rfl⟩

/-- C2 counterexample: against a backend whose record for the domain
already equals the desired state, the first reconciliation performs
zero writes, not exactly one. -/
theorem claim2_counterexample :
    ¬ ((writesOf (reconcile correctStore "" ⟨"opn", "192.168.1.50"⟩
      "svc.local").1.2).length = 1) := by decide

/-- C2 (amended): reconciling the same (domain, desiredIP) twice
against a backend whose state changes only through the engine's own
writes performs at most one write on the first call — exactly one when
the stored record is absent, disabled or bound to another IP, and zero
when it already matches — and zero writes on the second call, after
which the state is stable. -/
theorem claim2_amended_idempotence (st : Store) (caddyIP : String)
    (h : Handler) (domain : String)
    (hip : resolveIP h.ipOverride caddyIP ≠ "")
    (hval : isValidIP (resolveIP h.ipOverride caddyIP) = true) :
    (reconcile st caddyIP h domain).1.1 = .ok () ∧
    (writesOf (reconcile st caddyIP h domain).1.2).length ≤ 1 ∧
    (st domain ≠ some ⟨resolveIP h.ipOverride caddyIP, true⟩ →
      (writesOf (reconcile st caddyIP h domain).1.2).length = 1) ∧
    (st domain = some ⟨resolveIP h.ipOverride caddyIP, true⟩ →
      (writesOf (reconcile st caddyIP h domain).1.2).length = 0) ∧
    writesOf (reconcile (reconcile st caddyIP h domain).2 caddyIP h
      domain).1.2 = [] ∧
    (reconcile (reconcile st caddyIP h domain).2 caddyIP h domain).2
      = (reconcile st caddyIP h domain).2 := by
  by_cases hst : st domain = some ⟨resolveIP h.ipOverride caddyIP, true⟩
  · rw [reconcile_noop st caddyIP h domain hip hval hst]
    refine ⟨rfl, Nat.zero_le 1, fun hne => absurd hst hne, fun _ => rfl, ?_, ?_⟩
    · rw [reconcile_noop st caddyIP h domain hip hval hst]
      rfl
    · rw [reconcile_noop st caddyIP h domain hip hval hst]
  · obtain ⟨hok, hlen, hstate⟩ := reconcile_write st caddyIP h domain hip hval hst
    have hst2 : (reconcile st caddyIP h domain).2 domain
        = some ⟨resolveIP h.ipOverride caddyIP, true⟩ := by
      rw [hstate]
      exact if_pos rfl
    refine ⟨hok, by rw [hlen], fun _ => hlen, fun heq => absurd heq hst, ?_, ?_⟩
    · rw [reconcile_noop _ caddyIP h domain hip hval hst2]
      rfl
    · rw [reconcile_noop _ caddyIP h domain hip hval hst2]

/-- Witness for C2 (amended): starting from an empty backend, the
first reconciliation writes once and the second writes nothing. -/
theorem claim2_witness :
    (writesOf (reconcile emptyStore "" ⟨"opn", "192.168.1.50"⟩
      "svc.local").1.2).length = 1 ∧
    writesOf (reconcile (reconcile emptyStore "" ⟨"opn", "192.168.1.50"⟩
      "svc.local").2 "" ⟨"opn", "192.168.1.50"⟩ "svc.local").1.2 = [] := by
  have hmain := claim2_amended_idempotence emptyStore ""
    ⟨"opn", "192.168.1.50"⟩ "svc.local" (by decide) (by decide)
  exact ⟨hmain.2.2.1 (by intro hcontra; cases hcontra), hmain.2.2.2.2.1⟩

/-- If some configured entry fails to construct, the provider
initialisation loop fails as a whole, naming a failing provider. -/
theorem provisionClients_fails_of_mem
    (ctor : ProviderConfig → Bool → Except String Backend) (debug : Bool) :
    ∀ (l : List (String × ProviderConfig)) (name : String)
      (config : ProviderConfig) (e : String),
      (name, config) ∈ l → createProvider ctor debug config = .error e →
      ∃ n2 c2 e2, (n2, c2) ∈ l ∧ createProvider ctor debug c2 = .error e2 ∧
        provisionClients ctor debug l
          = .error ("failed to create provider " ++ n2 ++ ": " ++ e2)
  | [], name, config, e, hmem, _ => absurd hmem (List.not_mem_nil _)
  | (n, c) :: rest, name, config, e, hmem, herr => by
    cases hc : createProvider ctor debug c with
    | error e2 =>
      refine ⟨n, c, e2, List.mem_cons_self _ _, hc, ?_⟩
      rw [provisionClients, hc]
    | ok client =>
      rcases List.mem_cons.mp hmem with heq | hmem2
      · rw [show config = c from congrArg Prod.snd heq] at herr
        rw [herr] at hc
        cases hc
      · obtain ⟨n2, c2, e2, hm, he2, hp⟩ :=
          provisionClients_fails_of_mem ctor debug rest name config e hmem2 herr
        refine ⟨n2, c2, e2, List.mem_cons_of_mem _ hm, he2, ?_⟩
        rw [provisionClients, hc, hp]

/-- C6: if the construction of any single configured provider fails,
provisioning fails as a whole (and, when the global-IP check passes,
with an error naming an offending provider); and a non-empty global
default IP that is not syntactically valid makes provisioning fail. -/
theorem claim6_failfast_provisioning
    (ctor : ProviderConfig → Bool → Except String Backend) (a : App) :
    (∀ name config e, (name, config) ∈ a.providers →
      createProvider ctor a.debug config = .error e →
      (∃ msg, provision ctor a = .error msg) ∧
      ((a.caddyIP = "" ∨ isValidIP a.caddyIP = true) →
        ∃ n2 c2 e2, (n2, c2) ∈ a.providers ∧
          createProvider ctor a.debug c2 = .error e2 ∧
          provision ctor a
            = .error ("failed to create provider " ++ n2 ++ ": " ++ e2))) ∧
    (a.caddyIP ≠ "" → isValidIP a.caddyIP = false →
      provision ctor a = .error ("invalid caddy_ip address: " ++ a.caddyIP)) := by
  constructor
  · intro name config e hmem herr
    have hok : (a.caddyIP = "" ∨ isValidIP a.caddyIP = true) →
        provision ctor a = provisionClients ctor a.debug a.providers := by
      intro hcad
      unfold provision
      rw [if_neg]
      rintro ⟨hne, hfalse⟩
      rcases hcad with hemp | htrue
      · exact hne hemp
      · rw [htrue] at hfalse
        cases hfalse
    constructor
    · by_cases hcad : a.caddyIP = "" ∨ isValidIP a.caddyIP = true
      · obtain ⟨n2, c2, e2, _, _, hp⟩ :=
          provisionClients_fails_of_mem ctor a.debug a.providers
            name config e hmem herr
        exact ⟨_, (hok hcad).trans hp⟩
      · push_neg at hcad
        refine ⟨"invalid caddy_ip address: " ++ a.caddyIP, ?_⟩
        unfold provision
        rw [if_pos ⟨hcad.1, by
          cases hv : isValidIP a.caddyIP
          · rfl
          · exact absurd hv hcad.2⟩]
    · intro hcad
      obtain ⟨n2, c2, e2, hm, he2, hp⟩ :=
        provisionClients_fails_of_mem ctor a.debug a.providers
          name config e hmem herr
      exact ⟨n2, c2, e2, hm, he2, (hok hcad).trans hp⟩
  · intro hne hfalse
    unfold provision
    rw [if_pos ⟨hne, hfalse⟩]

/-- Witness for C6: a single provider whose constructor fails (and an
empty global IP) makes provisioning fail naming that provider. -/
theorem claim6_witness :
    provision failCtor ⟨[("fw", opnConfig)], "", false⟩
      = .error ("failed to create provider fw: unreachable host") := by
  have hmain := (claim6_failfast_provisioning failCtor
    ⟨[("fw", opnConfig)], "", false⟩).1 "fw" opnConfig "unreachable host"
    (List.mem_cons_self _ _) rfl
  obtain ⟨n2, c2, e2, hm, he2, hp⟩ := hmain.2 (Or.inl rfl)
  rcases List.mem_cons.mp hm with heq | habs
  · rw [hp]
    rw [show n2 = "fw" from congrArg Prod.fst heq]
    have : e2 = "unreachable host" := by
      rw [show c2 = opnConfig from congrArg Prod.snd heq] at he2
      cases he2
      rfl
    rw [this]
    rfl
  · exact absurd habs (List.not_mem_nil _)

/-- When the backend constructor itself ignores the debug flag (as the
spec requires of every backend: debug widens logging, never
validation), the provider-initialisation loop is insensitive to it. -/
theorem provisionClients_debug_indep
    (ctor : ProviderConfig → Bool → Except String Backend)
    (hctor : ∀ config, ctor config true = ctor config false) :
    ∀ l : List (String × ProviderConfig),
      provisionClients ctor true l = provisionClients ctor false l
  | [] => rfl
  | (n, c) :: rest => by
    have hc : createProvider ctor true c = createProvider ctor false c := by
      unfold createProvider
      by_cases ht : c.type = "opnsense"
      · rw [if_pos ht, if_pos ht, hctor]
      · rw [if_neg ht, if_neg ht]
    simp only [provisionClients]
    rw [hc, provisionClients_debug_indep ctor hctor rest]

/-- C9: with a backend constructor that does not act on the debug flag,
flipping the flag changes neither the outcome of provisioning nor the
decision and errors of any reconciliation run through the provisioned
app; it only widens logging. -/
theorem claim9_debug_noninterference
    (ctor : ProviderConfig → Bool → Except String Backend)
    (hctor : ∀ config, ctor config true = ctor config false)
    (a : App) (h : Handler) (domain : String) :
    provision ctor { a with debug := true }
      = provision ctor { a with debug := false } ∧
    reconcileApp ctor { a with debug := true } h domain
      = reconcileApp ctor { a with debug := false } h domain := by
  have hp : provision ctor { a with debug := true }
      = provision ctor { a with debug := false } := by
    unfold provision
    dsimp only
    rw [provisionClients_debug_indep ctor hctor]
  refine ⟨hp, ?_⟩
  unfold reconcileApp
  rw [hp]

/-- Witness for C9: a concrete app provisioned with the flag on and off
yields identical results. -/
theorem claim9_witness :
    provision okCtor ⟨[("fw", opnConfig)], "192.168.1.50", true⟩
      = provision okCtor ⟨[("fw", opnConfig)], "192.168.1.50", false⟩ ∧
    reconcileApp okCtor ⟨[("fw", opnConfig)], "192.168.1.50", true⟩
        ⟨"fw", ""⟩ "svc.local"
      = reconcileApp okCtor ⟨[("fw", opnConfig)], "192.168.1.50", false⟩
        ⟨"fw", ""⟩ "svc.local" :=
  claim9_debug_noninterference okCtor (fun _ => rfl)
    ⟨[("fw", opnConfig)], "192.168.1.50", false⟩ ⟨"fw", ""⟩ "svc.local"

/-- C10: a backend constructor is invoked exactly when the type tag is
`opnsense`; any other tag yields the `unsupported provider type` error
independently of the constructor, and provisioning an app containing
such a config always fails. -/
theorem claim10_closed_provider_enumeration
    (ctor ctor2 : ProviderConfig → Bool → Except String Backend)
    (config : ProviderConfig) (hne : config.type ≠ "opnsense") :
    (∀ debug, createProvider ctor debug config
      = .error ("unsupported provider type: " ++ config.type)) ∧
    (∀ debug, createProvider ctor debug config
      = createProvider ctor2 debug config) ∧
    (∀ debug (c2 : ProviderConfig), c2.type = "opnsense" →
      createProvider ctor debug c2 = ctor c2 debug) ∧
    (∀ (a : App) (name : String), (name, config) ∈ a.providers →
      ∃ msg, provision ctor a = .error msg) := by
  have herr : ∀ debug, createProvider ctor debug config
      = .error ("unsupported provider type: " ++ config.type) := by
    intro debug
    unfold createProvider
    rw [if_neg hne]
  refine ⟨herr, fun debug => ?_, fun debug c2 ht => ?_, fun a name hmem => ?_⟩
  · rw [herr debug]
    unfold createProvider
    rw [if_neg hne]
  · unfold createProvider
    rw [if_pos ht]
  · by_cases hcad : a.caddyIP ≠ "" ∧ isValidIP a.caddyIP = false
    · exact ⟨_, by unfold provision; rw [if_pos hcad]⟩
    · obtain ⟨n2, c2, e2, _, _, hp⟩ :=
        provisionClients_fails_of_mem ctor a.debug a.providers name config _
          hmem (herr a.debug)
      exact ⟨_, by unfold provision; rw [if_neg hcad]; exact hp⟩

/-- Witness for C10: a `pihole`-typed config is rejected with the
`unsupported provider type` error. -/
theorem claim10_witness :
    createProvider okCtor true piholeConfig
      = .error ("unsupported provider type: pihole") :=
  (claim10_closed_provider_enumeration okCtor failCtor piholeConfig
    (by decide)).1 true

end LocalDNS
